import Mathlib

/-!
Verification of the medium-mcp repository core: the normalization layer
(formatting.py, utils.py) and the upstream access layer (client.py) with
the tool surface (server.py), shallowly embedded in Lean 4.

Python strings are modelled as Lean `String` (a wrapper around `List Char`
in this toolchain); the Python value universe that flows through
`convert_to_string` is modelled by the inductive `PyVal`; an upstream call
that may raise is modelled as `Except String α` carrying the exception
message; a Python function that always raises `MediumError` is modelled as
returning the `MediumError` value it raises.
-/

/-- Model of the Python values that reach `convert_to_string`
(formatting.py): `None`, strings, ints, bools, lists, datetime-like
objects (which expose `isoformat`), and user-like objects (which expose a
`username` attribute). -/
inductive PyVal where
  | pynone : PyVal
  | str : String → PyVal
  | int : Int → PyVal
  | bool : Bool → PyVal
  | list : List PyVal → PyVal
  | datetime : String → PyVal
  | userObj : PyVal → PyVal

/-- Python truthiness (`bool(v)`): `None`, `0`, `False`, `""` and `[]`
are falsy; datetime and plain objects are always truthy. -/
def pyTruthy : PyVal → Bool
  | PyVal.pynone => false
  | PyVal.str s => !(s = "")
  | PyVal.int n => !(n = 0)
  | PyVal.bool b => b
  | PyVal.list xs => !xs.isEmpty
  | PyVal.datetime _ => true
  | PyVal.userObj _ => true

/-- Python `value is None`. -/
def isPyNone : PyVal → Bool
  | PyVal.pynone => true
  | _ => false

/-- Python `value == ""`: only a string equal to `""` compares equal to
the empty string (`0 == ""` and `[] == ""` are `False` in Python). -/
def pyEqEmptyStr : PyVal → Bool
  | PyVal.str s => s = ""
  | _ => false

/-- Python `hasattr(value, "username")`: true exactly for the user-like
objects. -/
def hasUsernameAttr : PyVal → Bool
  | PyVal.userObj _ => true
  | _ => false

/-- Python `hasattr(value, "isoformat")`: true exactly for datetime-like
objects. -/
def hasIsoformatAttr : PyVal → Bool
  | PyVal.datetime _ => true
  | _ => false

/-- The `username` attribute of a user-like object (`PyVal.pynone`
elsewhere; `convert_to_string` only reads it after `hasattr`). -/
def usernameAttr : PyVal → PyVal
  | PyVal.userObj u => u
  | _ => PyVal.pynone

/-- The `isoformat()` text of a datetime-like object. -/
def isoformatOf : PyVal → String
  | PyVal.datetime s => s
  | _ => ""

/-- Python `str(v)` default textual representation (the exact list/object
renderings are irrelevant to the claims; what matters is `str` on strings,
ints and bools). -/
def pyStr : PyVal → String
  | PyVal.pynone => "None"
  | PyVal.str s => s
  | PyVal.int n => toString n
  | PyVal.bool b => if b then "True" else "False"
  | PyVal.list _ => "[...]"
  | PyVal.datetime s => s
  | PyVal.userObj _ => "<object>"

/-- Embedding of `convert_to_string` (formatting.py lines 15-24):
`if value is None or value == "": return ""` /
`elif hasattr(value, "username") and value.username: return str(value.username)` /
`elif hasattr(value, "isoformat"): return value.isoformat()` /
`else: return str(value) if value else ""`. -/
def convert_to_string (value : PyVal) : String :=
  if isPyNone value || pyEqEmptyStr value then ""
  else if hasUsernameAttr value && pyTruthy (usernameAttr value) then
    pyStr (usernameAttr value)
  else if hasIsoformatAttr value then isoformatOf value
  else if pyTruthy value then pyStr value else ""

/-- ASCII lowercasing of one character, the per-character action of
Python `str.lower()` on the inputs this code base handles. -/
def lower_char (c : Char) : Char :=
  match c with
  | 'A' => 'a' | 'B' => 'b' | 'C' => 'c' | 'D' => 'd' | 'E' => 'e'
  | 'F' => 'f' | 'G' => 'g' | 'H' => 'h' | 'I' => 'i' | 'J' => 'j'
  | 'K' => 'k' | 'L' => 'l' | 'M' => 'm' | 'N' => 'n' | 'O' => 'o'
  | 'P' => 'p' | 'Q' => 'q' | 'R' => 'r' | 'S' => 's' | 'T' => 't'
  | 'U' => 'u' | 'V' => 'v' | 'W' => 'w' | 'X' => 'x' | 'Y' => 'y'
  | 'Z' => 'z'
  | other => other

/-- The per-character action of `.replace(" ", "-")`: a single-character
pattern makes Python `str.replace` a character map. -/
def rep_char (c : Char) : Char :=
  if c = ' ' then '-' else c

/-- Apply a character map to every character of a string. -/
def py_str_map (f : Char → Char) (s : String) : String :=
  String.mk (s.data.map f)

/-- Python `tag.lower()` for the ASCII tags this code handles. -/
def str_lower (s : String) : String :=
  py_str_map lower_char s

/-- Python `tag.replace(" ", "-")`. -/
def str_replace_space (s : String) : String :=
  py_str_map rep_char s

/-- Embedding of `normalize_tag` (formatting.py lines 8-12) at the type
it is actually used at (`str | None`): `if not tag: return tag` — both
`None` and `""` are falsy and pass through unchanged — else
`tag.lower().replace(" ", "-")`. -/
def normalize_tag : Option String → Option String
  | Option.none => Option.none
  | Option.some t =>
      if t = "" then Option.some t
      else Option.some (str_replace_space (str_lower t))

/-- `leads_list n h` holds when list `n` is an initial segment of `h`
(helper for Python substring containment). -/
def leads_list : List Char → List Char → Bool
  | [], _ => true
  | _ :: _, [] => false
  | a :: as, b :: bs => a == b && leads_list as bs

/-- `has_sub_list n h`: `n` occurs as a contiguous segment of `h`. -/
def has_sub_list (needle : List Char) : List Char → Bool
  | [] => needle.isEmpty
  | c :: cs => leads_list needle (c :: cs) || has_sub_list needle cs

/-- Python `needle in hay` on strings. -/
def py_in_str (needle hay : String) : Bool :=
  has_sub_list needle.data hay.data

/-- Embedding of the `MediumError` exception (models.py lines 82-94): a
message, an optional numeric status code, and a details mapping (all
values stored by this code base are strings). -/
structure MediumError where
  message : String
  status_code : Option Nat
  details : List (String × String)
deriving Repr, DecidableEq

/-- Embedding of `MediumClient._handle_api_error` (client.py lines
30-56). The Python method always raises; the model returns the
`MediumError` value raised. `error` is `str(error)` of the caught
exception and `context` the call-site context string. -/
def handle_api_error (error : String) (context : String) : MediumError :=
  let error_msg := "Medium API error in " ++ context ++ ": " ++ error
  if py_in_str "rate limit" (str_lower error) then
    { message := "Rate limit exceeded. Please try again later."
      status_code := Option.some 429
      details := [("context", context)] }
  else if py_in_str "unauthorized" (str_lower error) then
    { message := "Invalid RapidAPI key. Please check your configuration."
      status_code := Option.some 401
      details := [("context", context)] }
  else if py_in_str "not found" (str_lower error) then
    { message := "Resource not found: " ++ context
      status_code := Option.some 404
      details := [("context", context)] }
  else
    { message := error_msg
      status_code := Option.none
      details := [("context", context), ("original_error", error)] }

/-- A Python object for attribute lookup: maps an attribute name to
`Option.none` (attribute missing), `Option.some Option.none` (attribute
present with value `None`), or `Option.some (Option.some v)`. -/
def PyObj : Type := String → Option (Option PyVal)

/-- Python `getattr(obj, attr, default)`: the default only covers a
missing attribute; an attribute explicitly set to `None` is returned as
`None`. -/
def getattr_py (obj : PyObj) (attr : String) (default : Option PyVal) : Option PyVal :=
  (obj attr).getD default

/-- Embedding of `safe_getattr` (utils.py lines 8-13):
`value = getattr(obj, attr, default); if value is None: return default;
return value`. -/
def safe_getattr (obj : PyObj) (attr : String) (default : Option PyVal) : Option PyVal :=
  match getattr_py obj attr default with
  | Option.none => default
  | Option.some v => Option.some v

/-- Embedding of `MediumMCPConfig` (config.py lines 12-34). -/
structure MediumMCPConfig where
  rapidapi_key : String
  max_articles_per_request : Nat
  log_level : String

/-- Upstream user object as seen by `get_user_info`. Fields read by
plain attribute access (`user.username` etc.) are plain; fields read by
`getattr(user, a, d)` are `Option`-typed, `Option.none` standing for a
missing attribute (for the `getattr`-with-`None`-default fields this also
covers an attribute explicitly set to `None`, which this operation never
distinguishes from the default). -/
structure UpstreamUser where
  user_id : Option String
  username : String
  fullname : String
  bio : Option String
  followers_count : Nat
  following_count : Option Nat
  twitter_username : Option String
  image_url : Option String
  medium_member_at : Option PyVal
  is_writer_program_enrolled : Option Bool
  has_list : Option Bool
  is_suspended : Option Bool

/-- Embedding of the `MediumUser` record (models.py lines 8-22). -/
structure MediumUser where
  user_id : String
  username : String
  fullname : String
  bio : Option String
  followers_count : Nat
  following_count : Nat
  twitter_username : Option String
  image_url : Option String
  medium_member_at : String
  is_writer_program_enrolled : Bool
  has_list : Bool
  is_suspended : Bool
deriving Repr, DecidableEq

/-- Field-by-field construction of `MediumUser` from the upstream user
(client.py lines 63-80). -/
def mk_medium_user (user : UpstreamUser) : MediumUser :=
  { user_id := user.user_id.getD ""
    username := user.username
    fullname := user.fullname
    bio := user.bio
    followers_count := user.followers_count
    following_count := user.following_count.getD 0
    twitter_username := user.twitter_username
    image_url := user.image_url
    medium_member_at := convert_to_string (user.medium_member_at.getD PyVal.pynone)
    is_writer_program_enrolled := user.is_writer_program_enrolled.getD false
    has_list := user.has_list.getD false
    is_suspended := user.is_suspended.getD false }

/-- Embedding of `MediumClient.get_user_info` (client.py lines 58-83).
The upstream call `self.medium.user(username=...)` together with the
attribute reads is modelled by `upstream`: `Except.ok` carries the user
object, `Except.error` the `str(e)` of a raised exception. Note that the
trailing `return None` in the source is unreachable because
`_handle_api_error` raises on every branch, so no execution produces
`Except.ok Option.none`. -/
def client_get_user_info (upstream : Except String UpstreamUser)
    (username : String) : Except MediumError (Option MediumUser) :=
  match upstream with
  | Except.ok user => Except.ok (Option.some (mk_medium_user user))
  | Except.error e =>
      Except.error (handle_api_error e ("getting user info for " ++ username))

/-- Upstream article object as read by the three list-producing
operations. `title` and `url` are plain because `get_user_articles` and
`get_top_feeds` access them directly (`article.title`, `article.url`);
every other field holds the attribute-lookup result, `Option.none`
standing for "lookup fell back to the call-site default" (a missing
attribute under `getattr`, and additionally an attribute explicitly set
to `None` under `safe_getattr`; the `getattr`/`safe_getattr` distinction
on explicit `None` is modelled separately by `getattr_py`/`safe_getattr`
above). `reading_time` is a Python float carried through untouched,
modelled as an integer-valued placeholder. -/
structure UpstreamArticle where
  article_id : Option String
  title : String
  subtitle : Option String
  author : Option PyVal
  published_at : Option PyVal
  last_modified_at : Option PyVal
  tags : Option (List String)
  topics : Option (List String)
  claps : Option Nat
  voters : Option Nat
  word_count : Option Nat
  reading_time : Option Int
  responses_count : Option Nat
  url : String
  unique_slug : Option String
  is_locked : Option Bool
  is_shortform : Option Bool
  language : Option String

/-- Embedding of the `MediumArticle` record (models.py lines 25-45). -/
structure MediumArticle where
  article_id : String
  title : String
  subtitle : Option String
  author : String
  published_at : String
  last_modified_at : String
  tags : List String
  topics : List String
  claps : Nat
  voters : Nat
  word_count : Nat
  reading_time : Int
  responses_count : Nat
  url : String
  unique_slug : String
  is_locked : Bool
  is_shortform : Bool
  language : String
deriving Repr, DecidableEq

/-- Per-article record construction in `get_user_articles` (client.py
lines 97-122): `author` is the requested `username` argument, not any
upstream author data. -/
def mk_article_from_user (username : String) (a : UpstreamArticle) : MediumArticle :=
  { article_id := a.article_id.getD ""
    title := a.title
    subtitle := a.subtitle
    author := username
    published_at := convert_to_string (a.published_at.getD (PyVal.str ""))
    last_modified_at := convert_to_string (a.last_modified_at.getD (PyVal.str ""))
    tags := a.tags.getD []
    topics := a.topics.getD []
    claps := a.claps.getD 0
    voters := a.voters.getD 0
    word_count := a.word_count.getD 0
    reading_time := a.reading_time.getD 0
    responses_count := a.responses_count.getD 0
    url := a.url
    unique_slug := a.unique_slug.getD ""
    is_locked := a.is_locked.getD false
    is_shortform := a.is_shortform.getD false
    language := a.language.getD "en" }

/-- Per-article record construction in `get_top_feeds` (client.py lines
179-204): identical to the authored-articles mapping except that
`author` comes from the upstream object via
`convert_to_string(getattr(article, "author", ""))`. -/
def mk_article_from_feed (a : UpstreamArticle) : MediumArticle :=
  { mk_article_from_user "" a with
    author := convert_to_string (a.author.getD (PyVal.str "")) }

/-- Per-article record construction in `search_articles` (client.py
lines 223-248): every field goes through `safe_getattr` with the same
defaults as the feed mapping (for `title`/`url`, modelled as
always-present strings, `safe_getattr` returns the present value). -/
def mk_article_from_search (a : UpstreamArticle) : MediumArticle :=
  mk_article_from_feed a

/-- Embedding of `MediumClient.get_user_articles` (client.py lines
85-127). The upstream pair `medium.user(...)`/`user.fetch_articles()` is
modelled by `upstream` carrying the full hydrated article list of the user
(hydration happens before truncation, so the list length is the total
`available` count of the author); `user.articles[:article_limit]` is
`List.take`. -/
def client_get_user_articles (cfg : MediumMCPConfig)
    (upstream : Except String (List UpstreamArticle))
    (username : String) (count : Nat) :
    Except MediumError (Option (List MediumArticle)) :=
  match upstream with
  | Except.ok arts =>
      let article_limit := min count cfg.max_articles_per_request
      Except.ok (Option.some ((arts.take article_limit).map (mk_article_from_user username)))
  | Except.error e =>
      Except.error (handle_api_error e ("getting articles for user " ++ username))

/-- Python `f"{tag}"` for `tag : str | None` (the context string of
`get_top_feeds` interpolates the raw tag argument). -/
def format_opt_str : Option String → String
  | Option.none => "None"
  | Option.some s => s

/-- Embedding of `MediumClient.get_top_feeds` (client.py lines 165-209).
The upstream `medium.topfeeds(tag=..., mode=...).articles` call is the
function argument `upstream_topfeeds`; the code passes it
`normalize_tag(tag)`. Truncation (`min(count, max)` then `[:limit]`) is
applied to the raw list before the hydration call
`medium.fetch_articles(results, html_fullpage=False)`, which is modelled
as the stubs already carrying their hydrated fields. -/
def client_get_top_feeds (cfg : MediumMCPConfig)
    (upstream_topfeeds : Option String → String → Except String (List UpstreamArticle))
    (tag : Option String) (mode : String) (count : Nat) :
    Except MediumError (Option (List MediumArticle)) :=
  match upstream_topfeeds (normalize_tag tag) mode with
  | Except.ok results =>
      let article_limit := min count cfg.max_articles_per_request
      Except.ok (Option.some ((results.take article_limit).map mk_article_from_feed))
  | Except.error e =>
      Except.error (handle_api_error e ("getting top feeds for tag " ++ format_opt_str tag))

/-- Embedding of `MediumClient.search_articles` (client.py lines
211-253): the upstream search (which ignores `count`) yields the stub
list, truncation (`min(count, max)` then `[:limit]`) precedes hydration,
and each hydrated stub is mapped through the `safe_getattr` field
extraction. -/
def client_search_articles (cfg : MediumMCPConfig)
    (upstream_search : String → Except String (List UpstreamArticle))
    (query : String) (count : Nat) :
    Except MediumError (Option (List MediumArticle)) :=
  match upstream_search query with
  | Except.ok results =>
      let article_limit := min count cfg.max_articles_per_request
      Except.ok (Option.some ((results.take article_limit).map mk_article_from_search))
  | Except.error e =>
      Except.error (handle_api_error e ("searching articles with query: " ++ query))

/-- Upstream article object as read by `get_article_content`: the three
representation fields plus metadata. Fields accessed as plain attributes
whose value may be `None` (`article.title`, the representations) are
`Option String` with `Option.none` for Python `None`; `author` and
`published_at` hold the `getattr(..., None)` result, `Option.none`
covering both a missing attribute and an explicit `None` (the code maps
both to `""`). -/
structure UpstreamFullArticle where
  title : Option String
  subtitle : Option String
  html : Option String
  markdown : Option String
  content : Option String
  author : Option PyVal
  published_at : Option PyVal

/-- Embedding of the `ArticleContent` record (models.py lines 58-68). -/
structure ArticleContent where
  title : String
  subtitle : Option String
  content : String
  content_format : String
  author : String
  published_at : String
deriving Repr, DecidableEq

/-- Python `x or ""` for `x : str | None`: `None` and `""` are falsy and
yield `""`; any other string is returned unchanged. -/
def py_or_empty : Option String → String
  | Option.none => ""
  | Option.some s => s

/-- Embedding of `MediumClient.get_article_content` (client.py lines
129-163): the requested `content_format` selects which upstream
representation field is read (`"html"` → `article.html`, `"markdown"` →
`article.markdown`, anything else → `article.content`), and the
`content_format` field of the record field is the request argument itself. -/
def client_get_article_content (upstream : Except String UpstreamFullArticle)
    (article_id : String) (content_format : String) :
    Except MediumError (Option ArticleContent) :=
  match upstream with
  | Except.ok article =>
      let content :=
        if content_format = "html" then article.html
        else if content_format = "markdown" then article.markdown
        else article.content
      let author_value := article.author.getD (PyVal.str "")
      let published_at_value := article.published_at.getD (PyVal.str "")
      Except.ok (Option.some
        { title := py_or_empty article.title
          subtitle := article.subtitle
          content := py_or_empty content
          content_format := content_format
          author := convert_to_string author_value
          published_at := convert_to_string published_at_value })
  | Except.error e =>
      Except.error (handle_api_error e ("getting content for article " ++ article_id))

/-- Python whitespace characters recognized by `str.strip()`. -/
def is_py_space (c : Char) : Bool :=
  c = ' ' || c = '\t' || c = '\n' || c = '\r' || c = '\x0b' || c = '\x0c'

/-- Python `s.strip()`: drop leading and trailing whitespace. -/
def py_strip (s : String) : String :=
  String.mk (((s.data.dropWhile is_py_space).reverse.dropWhile is_py_space).reverse)

/-- Abbreviated model of `json.dumps` on a `MediumUser.model_dump()`
(the claims depend only on which record is serialized, never on the
rendering). Literal braces are escaped. -/
def dumps_user (u : MediumUser) : String :=
  "\x7b\"username\": \"" ++ u.username ++ "\", \"fullname\": \"" ++ u.fullname ++ "\"\x7d"

/-- `json.dumps(user.model_dump() if user else None)`: Python `None`
serializes to the JSON text `null`. -/
def dumps_opt_user : Option MediumUser → String
  | Option.none => "null"
  | Option.some u => dumps_user u

/-- Abbreviated model of `json.dumps` on one `MediumArticle.model_dump()`. -/
def dumps_article (a : MediumArticle) : String :=
  "\x7b\"article_id\": \"" ++ a.article_id ++ "\", \"author\": \"" ++ a.author ++ "\"\x7d"

/-- `json.dumps([a.model_dump() for a in articles] if articles else [])`:
both a `None` result and an empty list serialize as an empty JSON
array. -/
def dumps_articles (articles : Option (List MediumArticle)) : String :=
  "[" ++ String.intercalate ", " ((articles.getD []).map dumps_article) ++ "]"

/-- Embedding of the `get_user_info` tool (server.py lines 60-81). The
access layer is the function argument `client_fn`; a raised
`MediumError` is re-raised as `Exception("Medium API Error: " + e.message)`,
modelled as `Except.error` carrying that text. -/
def server_get_user_info
    (client_fn : String → Except MediumError (Option MediumUser))
    (username : String) : Except String String :=
  match client_fn username with
  | Except.ok user => Except.ok (dumps_opt_user user)
  | Except.error e => Except.error ("Medium API Error: " ++ e.message)

/-- Embedding of the `get_user_articles` tool (server.py lines 84-115):
the count range check `count < 1 or count > 100` raises
`ValueError("Count must be between 1 and 100")` — re-raised by the
generic handler as `Exception("Error: " + str(e))` — before the client
is consulted. -/
def server_get_user_articles
    (client_fn : String → Nat → Except MediumError (Option (List MediumArticle)))
    (username : String) (count : Int) : Except String String :=
  if count < 1 || count > 100 then
    Except.error "Error: Count must be between 1 and 100"
  else
    match client_fn username count.toNat with
    | Except.ok articles => Except.ok (dumps_articles articles)
    | Except.error e => Except.error ("Medium API Error: " ++ e.message)

/-- `VALID_FEED_MODES` (server.py line 159). -/
def VALID_FEED_MODES : List String :=
  ["hot", "new", "top_year", "top_month", "top_week", "top_all_time"]

/-- Embedding of the `get_top_feeds` tool (server.py lines 161-193):
count range check, then mode membership check, then delegation; `tag` is
a plain string here (default `""`) handed to the access layer. -/
def server_get_top_feeds
    (client_fn : Option String → String → Nat → Except MediumError (Option (List MediumArticle)))
    (tag : String) (mode : String) (count : Int) : Except String String :=
  if count < 1 || count > 100 then
    Except.error "Error: Count must be between 1 and 100"
  else if !(VALID_FEED_MODES.contains mode) then
    Except.error ("Error: Invalid mode \x27" ++ mode ++
      "\x27. Must be one of: hot, new, top_year, top_month, top_week, top_all_time")
  else
    match client_fn (Option.some tag) mode count.toNat with
    | Except.ok articles => Except.ok (dumps_articles articles)
    | Except.error e => Except.error ("Medium API Error: " ++ e.message)

/-- Embedding of the `search_articles` tool (server.py lines 196-231):
the blank-query check `if not query.strip()` precedes the count range
check, and both precede any use of the client. -/
def server_search_articles
    (client_fn : String → Nat → Except MediumError (Option (List MediumArticle)))
    (query : String) (count : Int) : Except String String :=
  if py_strip query = "" then
    Except.error "Error: Search query cannot be empty"
  else if count < 1 || count > 100 then
    Except.error "Error: Count must be between 1 and 100"
  else
    match client_fn query count.toNat with
    | Except.ok articles => Except.ok (dumps_articles articles)
    | Except.error e => Except.error ("Medium API Error: " ++ e.message)

/-! ## Helper lemmas -/

/-- The ASCII lowercase letters, i.e. the possible outputs of
`lower_char` on an uppercase letter. -/
def ascii_lowercase : List Char :=
  ['a', 'b', 'c', 'd', 'e', 'f', 'g', 'h', 'i', 'j', 'k', 'l', 'm',
   'n', 'o', 'p', 'q', 'r', 's', 't', 'u', 'v', 'w', 'x', 'y', 'z']

lemma lower_char_cases (c : Char) :
    lower_char c = c ∨ lower_char c ∈ ascii_lowercase := by
  unfold lower_char
  split
  all_goals first
    | (right; decide)
    | (left; rfl)

lemma lower_char_fix_of_lower {c : Char} (h : c ∈ ascii_lowercase) :
    lower_char c = c := by
  fin_cases h <;> decide

lemma lower_char_idem (c : Char) :
    lower_char (lower_char c) = lower_char c := by
  rcases lower_char_cases c with h | h
  · rw [h]
    exact h
  · exact lower_char_fix_of_lower h

lemma lower_char_space {c : Char} (h : lower_char c = ' ') : c = ' ' := by
  rcases lower_char_cases c with h2 | h2
  · rw [← h2]; exact h
  · rw [h] at h2; exact absurd h2 (by decide)

lemma rep_lower_idem (c : Char) :
    rep_char (lower_char (rep_char (lower_char c))) = rep_char (lower_char c) := by
  by_cases hsp : lower_char c = ' '
  · have h1 : rep_char (lower_char c) = '-' := by rw [hsp]; rfl
    rw [h1]; decide
  · have h1 : rep_char (lower_char c) = lower_char c := by simp [rep_char, hsp]
    rw [h1, lower_char_idem, h1]

lemma py_str_map_comp (f g : Char → Char) (s : String) :
    py_str_map f (py_str_map g s) = py_str_map (fun c => f (g c)) s := by
  apply congrArg String.mk
  show (s.data.map g).map f = s.data.map (fun c => f (g c))
  rw [List.map_map]
  rfl

lemma py_str_map_congr {f g : Char → Char} (h : ∀ c, f c = g c) (s : String) :
    py_str_map f s = py_str_map g s := by
  apply congrArg String.mk
  show s.data.map f = s.data.map g
  induction s.data with
  | nil => rfl
  | cons c cs ih => simp [List.map, h c, ih]

lemma string_eq_empty_iff (s : String) : s = "" ↔ s.data = [] := by
  cases s with
  | mk l =>
    constructor
    · intro h
      rw [h]
    · intro h
      show String.mk l = ""
      rw [show l = [] from h]

lemma py_str_map_empty_iff (f : Char → Char) (s : String) :
    py_str_map f s = "" ↔ s = "" := by
  rw [string_eq_empty_iff, string_eq_empty_iff]
  show s.data.map f = [] ↔ s.data = []
  simp

lemma normalize_tag_idem (x : Option String) :
    normalize_tag (normalize_tag x) = normalize_tag x := by
  cases x with
  | none => rfl
  | some t =>
    by_cases ht : t = ""
    · subst ht
      rfl
    · have h1 : normalize_tag (Option.some t)
          = Option.some (str_replace_space (str_lower t)) := by
        simp [normalize_tag, ht]
      rw [h1]
      have h2 : str_replace_space (str_lower t) ≠ "" := by
        intro h
        unfold str_replace_space at h
        rw [py_str_map_empty_iff] at h
        unfold str_lower at h
        rw [py_str_map_empty_iff] at h
        exact ht h
      have h3 : normalize_tag (Option.some (str_replace_space (str_lower t)))
          = Option.some (str_replace_space (str_lower (str_replace_space (str_lower t)))) := by
        simp [normalize_tag, h2]
      rw [h3]
      apply congrArg Option.some
      show py_str_map rep_char (py_str_map lower_char
        (py_str_map rep_char (py_str_map lower_char t)))
        = py_str_map rep_char (py_str_map lower_char t)
      rw [py_str_map_comp rep_char lower_char t]
      rw [py_str_map_comp rep_char lower_char]
      rw [py_str_map_comp]
      exact py_str_map_congr (fun c => rep_lower_idem c) t

/-! ## Claim theorems -/

/-- C5: tag canonicalization is idempotent (`normalize_tag (normalize_tag x)
= normalize_tag x` for every text-or-absent `x`); empty and absent inputs
pass through unchanged (the absent marker is preserved, not coerced to
empty text); and every non-empty input is exactly the character-wise
image lowercasing each character and turning each space into a hyphen,
no other character altered. -/
theorem normalize_tag_canonical :
    (∀ x : Option String, normalize_tag (normalize_tag x) = normalize_tag x) ∧
    normalize_tag Option.none = Option.none ∧
    normalize_tag (Option.some "") = Option.some "" ∧
    (∀ t : String, t ≠ "" →
      normalize_tag (Option.some t)
        = Option.some (py_str_map (fun c => rep_char (lower_char c)) t)) ∧
    (∀ c : Char, c ≠ ' ' → rep_char (lower_char c) = lower_char c) ∧
    rep_char (lower_char ' ') = '-' := by
  refine ⟨normalize_tag_idem, rfl, by decide, ?_, ?_, by decide⟩
  · intro t ht
    simp only [normalize_tag, ht, if_neg]
    apply congrArg Option.some
    exact py_str_map_comp rep_char lower_char t
  · intro c hc
    have hl : lower_char c ≠ ' ' := fun h => hc (lower_char_space h)
    simp [rep_char, hl]

/-- Witness for C5 at concrete inputs: the non-empty tag
`"Data Science"` and the non-space character `x`. -/
theorem normalize_tag_canonical_witness :
    ("Data Science" ≠ "" ∧
      normalize_tag (Option.some "Data Science")
        = Option.some (py_str_map (fun c => rep_char (lower_char c)) "Data Science")) ∧
    ('x' ≠ ' ' ∧ rep_char (lower_char 'x') = lower_char 'x') :=
  ⟨⟨by decide, normalize_tag_canonical.2.2.2.1 "Data Science" (by decide)⟩,
   ⟨by decide, normalize_tag_canonical.2.2.2.2.1 'x' (by decide)⟩⟩

/-- C4: the generic stringification follows the fixed precedence —
`None`/empty first, then a truthy `username` attribute, then `isoformat`,
then the default text only for truthy values — so `0`, `False` and `[]`
stringify to empty text while `"x"` and a datetime keep their text. -/
theorem convert_to_string_precedence :
    convert_to_string (PyVal.int 0) = "" ∧
    convert_to_string (PyVal.bool false) = "" ∧
    convert_to_string (PyVal.list []) = "" ∧
    convert_to_string (PyVal.str "x") = "x" ∧
    convert_to_string (PyVal.datetime "2024-01-15T10:30:45") = "2024-01-15T10:30:45" ∧
    (∀ v : PyVal, pyTruthy v = false → convert_to_string v = "") ∧
    (∀ u : PyVal, pyTruthy u = true → convert_to_string (PyVal.userObj u) = pyStr u) ∧
    (∀ iso : String, convert_to_string (PyVal.datetime iso) = iso) := by
  refine ⟨by decide, by decide, by decide, by decide, by decide, ?_, ?_, fun iso => rfl⟩
  · intro v hv
    cases v with
    | pynone => rfl
    | str s =>
      have hs : s = "" := by simpa [pyTruthy] using hv
      subst hs
      rfl
    | int n =>
      have hn : n = 0 := by simpa [pyTruthy] using hv
      subst hn
      rfl
    | bool b =>
      have hb : b = false := by simpa [pyTruthy] using hv
      subst hb
      rfl
    | list xs =>
      cases xs with
      | nil => rfl
      | cons a as => simp [pyTruthy] at hv
    | datetime s => simp [pyTruthy] at hv
    | userObj u => simp [pyTruthy] at hv
  · intro u hu
    simp [convert_to_string, isPyNone, pyEqEmptyStr, hasUsernameAttr, usernameAttr, hu]

/-- Witness for C4: the truthiness and username conjuncts at concrete
values. -/
theorem convert_to_string_precedence_witness :
    (pyTruthy (PyVal.int 0) = false ∧ convert_to_string (PyVal.int 0) = "") ∧
    (pyTruthy (PyVal.str "alice") = true ∧
      convert_to_string (PyVal.userObj (PyVal.str "alice")) = pyStr (PyVal.str "alice")) ∧
    convert_to_string (PyVal.datetime "2024-01-15T10:30:45") = "2024-01-15T10:30:45" :=
  ⟨⟨by decide, convert_to_string_precedence.2.2.2.2.2.1 (PyVal.int 0) (by decide)⟩,
   ⟨by decide, convert_to_string_precedence.2.2.2.2.2.2.1 (PyVal.str "alice") (by decide)⟩,
   convert_to_string_precedence.2.2.2.2.2.2.2 "2024-01-15T10:30:45"⟩

/-- A configuration with the ceiling set to 5, as in end-to-end scenario 2 of the spec. -/
def demo_config : MediumMCPConfig :=
  { rapidapi_key := "demo-rapidapi-key"
    max_articles_per_request := 5
    log_level := "INFO" }

/-- C8: the top-feed operation consults the upstream only at the
canonicalized tag — any two upstreams agreeing at `normalize_tag tag`
give the same operation result — and canonicalization sends
`"Data Science"` to `"data-science"` while leaving an absent tag
absent. -/
theorem top_feeds_tag_normalized :
    (∀ (cfg : MediumMCPConfig)
        (f g : Option String → String → Except String (List UpstreamArticle))
        (tag : Option String) (mode : String) (count : Nat),
        f (normalize_tag tag) mode = g (normalize_tag tag) mode →
        client_get_top_feeds cfg f tag mode count
          = client_get_top_feeds cfg g tag mode count) ∧
    normalize_tag (Option.some "Data Science") = Option.some "data-science" ∧
    normalize_tag Option.none = Option.none := by
  refine ⟨?_, by decide, rfl⟩
  intro cfg f g tag mode count h
  unfold client_get_top_feeds
  rw [h]

/-- An upstream that only answers the canonical slug `"data-science"`
(used to witness that the call made for tag `"Data Science"` is the
canonicalized one). -/
def probe_feed (t : Option String) (_ : String) : Except String (List UpstreamArticle) :=
  if t = Option.some "data-science" then Except.ok [] else Except.error "wrong tag"

/-- Witness for C8: requesting tag `"Data Science"` behaves exactly as
with a constant upstream, because `probe_feed` is consulted only at
`"data-science"`. -/
theorem top_feeds_tag_normalized_witness :
    client_get_top_feeds demo_config probe_feed (Option.some "Data Science") "hot" 3
      = client_get_top_feeds demo_config (fun _ _ => Except.ok [])
          (Option.some "Data Science") "hot" 3 :=
  top_feeds_tag_normalized.1 demo_config probe_feed (fun _ _ => Except.ok [])
    (Option.some "Data Science") "hot" 3
    (by
      have h : normalize_tag (Option.some "Data Science") = Option.some "data-science" := by
        decide
      rw [h]
      simp [probe_feed])

/-- C2: every access-layer operation re-raises any upstream exception as
the `MediumError` chosen by the first matching substring of the
lowercased exception text — `"rate limit"` → 429, else `"unauthorized"`
→ 401, else `"not found"` → 404, else no status code with the original
text stored under `"original_error"` beside the call context — and the
original exception never escapes (the error value of each operation is the
classified `MediumError`). -/
theorem api_error_classified :
    ∀ (e ctx : String),
      (py_in_str "rate limit" (str_lower e) = true →
        handle_api_error e ctx =
          { message := "Rate limit exceeded. Please try again later."
            status_code := Option.some 429
            details := [("context", ctx)] }) ∧
      (py_in_str "rate limit" (str_lower e) = false →
        py_in_str "unauthorized" (str_lower e) = true →
        handle_api_error e ctx =
          { message := "Invalid RapidAPI key. Please check your configuration."
            status_code := Option.some 401
            details := [("context", ctx)] }) ∧
      (py_in_str "rate limit" (str_lower e) = false →
        py_in_str "unauthorized" (str_lower e) = false →
        py_in_str "not found" (str_lower e) = true →
        handle_api_error e ctx =
          { message := "Resource not found: " ++ ctx
            status_code := Option.some 404
            details := [("context", ctx)] }) ∧
      (py_in_str "rate limit" (str_lower e) = false →
        py_in_str "unauthorized" (str_lower e) = false →
        py_in_str "not found" (str_lower e) = false →
        handle_api_error e ctx =
          { message := "Medium API error in " ++ ctx ++ ": " ++ e
            status_code := Option.none
            details := [("context", ctx), ("original_error", e)] }) ∧
      (∀ u, client_get_user_info (Except.error e) u
          = Except.error (handle_api_error e ("getting user info for " ++ u))) ∧
      (∀ cfg u c, client_get_user_articles cfg (Except.error e) u c
          = Except.error (handle_api_error e ("getting articles for user " ++ u))) ∧
      (∀ a f, client_get_article_content (Except.error e) a f
          = Except.error (handle_api_error e ("getting content for article " ++ a))) ∧
      (∀ cfg up tag mode c, (∀ t m, up t m = Except.error e) →
        client_get_top_feeds cfg up tag mode c
          = Except.error (handle_api_error e ("getting top feeds for tag " ++ format_opt_str tag))) ∧
      (∀ cfg up q c, (∀ x, up x = Except.error e) →
        client_search_articles cfg up q c
          = Except.error (handle_api_error e ("searching articles with query: " ++ q))) := by
  intro e ctx
  refine ⟨?_, ?_, ?_, ?_, fun u => rfl, fun cfg u c => rfl, fun a f => rfl, ?_, ?_⟩
  · intro h1
    simp [handle_api_error, h1]
  · intro h1 h2
    simp [handle_api_error, h1, h2]
  · intro h1 h2 h3
    simp [handle_api_error, h1, h2, h3]
  · intro h1 h2 h3
    simp [handle_api_error, h1, h2, h3]
  · intro cfg up tag mode c hup
    unfold client_get_top_feeds
    rw [hup]
  · intro cfg up q c hup
    unfold client_search_articles
    rw [hup]

/-- Witness for C2: each classification branch and each operation at a
concrete exception text. -/
theorem api_error_classified_witness :
    (py_in_str "rate limit" (str_lower "Rate limit exceeded") = true ∧
      handle_api_error "Rate limit exceeded" "searching articles with query: ai" =
        { message := "Rate limit exceeded. Please try again later."
          status_code := Option.some 429
          details := [("context", "searching articles with query: ai")] }) ∧
    (py_in_str "rate limit" (str_lower "Unauthorized access") = false ∧
      py_in_str "unauthorized" (str_lower "Unauthorized access") = true ∧
      handle_api_error "Unauthorized access" "getting user info for bob" =
        { message := "Invalid RapidAPI key. Please check your configuration."
          status_code := Option.some 401
          details := [("context", "getting user info for bob")] }) ∧
    (py_in_str "rate limit" (str_lower "boom") = false ∧
      py_in_str "unauthorized" (str_lower "boom") = false ∧
      py_in_str "not found" (str_lower "boom") = false ∧
      handle_api_error "boom" "getting user info for bob" =
        { message := "Medium API error in getting user info for bob: boom"
          status_code := Option.none
          details := [("context", "getting user info for bob"), ("original_error", "boom")] }) ∧
    client_get_top_feeds demo_config (fun _ _ => Except.error "boom")
        (Option.some "ai") "hot" 3
      = Except.error (handle_api_error "boom" "getting top feeds for tag ai") :=
  ⟨⟨by decide, (api_error_classified "Rate limit exceeded"
      "searching articles with query: ai").1 (by decide)⟩,
   ⟨by decide, by decide, (api_error_classified "Unauthorized access"
      "getting user info for bob").2.1 (by decide) (by decide)⟩,
   ⟨by decide, by decide, by decide, (api_error_classified "boom"
      "getting user info for bob").2.2.2.1 (by decide) (by decide) (by decide)⟩,
   (api_error_classified "boom" "getting top feeds for tag ai").2.2.2.2.2.2.2.1
      demo_config (fun _ _ => Except.error "boom") (Option.some "ai") "hot" 3
      (fun _ _ => rfl)⟩

/-- A fully populated sample upstream article for concrete witnesses. -/
def sample_upstream_article : UpstreamArticle :=
  { article_id := Option.some "abc123"
    title := "A Title"
    subtitle := Option.none
    author := Option.some (PyVal.str "someone")
    published_at := Option.some (PyVal.datetime "2024-01-15T10:30:45")
    last_modified_at := Option.none
    tags := Option.some ["ai"]
    topics := Option.none
    claps := Option.some 7
    voters := Option.none
    word_count := Option.some 100
    reading_time := Option.none
    responses_count := Option.none
    url := "https://medium.com/p/abc123"
    unique_slug := Option.some "a-title-abc123"
    is_locked := Option.some false
    is_shortform := Option.none
    language := Option.none }

/-- C3: each list-producing operation returns exactly
`min(count, ceiling, available)` records — truncation is
`min(count, max_articles_per_request)` applied by `List.take` to the
upstream list of length `available`. -/
theorem list_ops_record_count :
    ∀ (cfg : MediumMCPConfig) (arts : List UpstreamArticle)
      (username query mode : String) (tag : Option String) (count : Nat),
      (∃ res, client_get_user_articles cfg (Except.ok arts) username count
          = Except.ok (Option.some res) ∧
        res.length = min count (min cfg.max_articles_per_request arts.length)) ∧
      (∀ up, up (normalize_tag tag) mode = Except.ok arts →
        ∃ res, client_get_top_feeds cfg up tag mode count
            = Except.ok (Option.some res) ∧
          res.length = min count (min cfg.max_articles_per_request arts.length)) ∧
      (∀ up, up query = Except.ok arts →
        ∃ res, client_search_articles cfg up query count
            = Except.ok (Option.some res) ∧
          res.length = min count (min cfg.max_articles_per_request arts.length)) := by
  intro cfg arts username query mode tag count
  refine ⟨⟨_, rfl, ?_⟩, ?_, ?_⟩
  · simp [min_assoc]
  · intro up hup
    refine ⟨(arts.take (min count cfg.max_articles_per_request)).map
      mk_article_from_feed, ?_, ?_⟩
    · unfold client_get_top_feeds
      rw [hup]
    · simp [min_assoc]
  · intro up hup
    refine ⟨(arts.take (min count cfg.max_articles_per_request)).map
      mk_article_from_search, ?_, ?_⟩
    · unfold client_search_articles
      rw [hup]
    · simp [min_assoc]

/-- Witness for C3, end-to-end scenario 2 of the spec: requesting 10
authored articles when only 4 exist under a ceiling of 5 returns exactly
4 records (and likewise through the top-feed path). -/
theorem list_ops_record_count_witness :
    (∃ res, client_get_user_articles demo_config
        (Except.ok (List.replicate 4 sample_upstream_article)) "testuser" 10
        = Except.ok (Option.some res) ∧ res.length = 4) ∧
    (∃ res, client_get_top_feeds demo_config
        (fun _ _ => Except.ok (List.replicate 4 sample_upstream_article))
        (Option.some "ai") "hot" 10
        = Except.ok (Option.some res) ∧ res.length = 4) := by
  refine ⟨?_, ?_⟩
  · obtain ⟨res, h1, h2⟩ := (list_ops_record_count demo_config
      (List.replicate 4 sample_upstream_article) "testuser" "q" "hot"
      (Option.some "ai") 10).1
    exact ⟨res, h1, by rw [h2]; rfl⟩
  · obtain ⟨res, h1, h2⟩ := (list_ops_record_count demo_config
      (List.replicate 4 sample_upstream_article) "testuser" "q" "hot"
      (Option.some "ai") 10).2.1
      (fun _ _ => Except.ok (List.replicate 4 sample_upstream_article)) rfl
    exact ⟨res, h1, by rw [h2]; rfl⟩

/-- C10: every record returned by the authored-articles operation has
its `author` field equal to the requested handle argument, regardless of
upstream author data. -/
theorem user_articles_author_pinned :
    ∀ (cfg : MediumMCPConfig) (arts : List UpstreamArticle)
      (username : String) (count : Nat) (res : List MediumArticle)
      (r : MediumArticle),
      client_get_user_articles cfg (Except.ok arts) username count
        = Except.ok (Option.some res) →
      r ∈ res → r.author = username := by
  intro cfg arts username count res r h hr
  have hres : res = (arts.take (min count cfg.max_articles_per_request)).map
      (mk_article_from_user username) := by
    simpa [client_get_user_articles] using h.symm
  rw [hres] at hr
  rcases List.mem_map.mp hr with ⟨a, _, rfl⟩
  rfl

/-- Witness for C10: a sample article whose upstream author is
`"someone"` comes back with author `"alice"`, the requested handle. -/
theorem user_articles_author_pinned_witness :
    client_get_user_articles demo_config (Except.ok [sample_upstream_article]) "alice" 3
        = Except.ok (Option.some [mk_article_from_user "alice" sample_upstream_article]) ∧
    (mk_article_from_user "alice" sample_upstream_article).author = "alice" :=
  ⟨rfl, user_articles_author_pinned demo_config [sample_upstream_article] "alice" 3
    [mk_article_from_user "alice" sample_upstream_article]
    (mk_article_from_user "alice" sample_upstream_article)
    rfl (List.mem_singleton.mpr rfl)⟩

/-- C6: the article-body operation returns a record whose
`content_format` is exactly the requested selector and whose `content`
is the upstream representation field the selector picks — `"html"` reads
the HTML field, `"markdown"` the markdown field, and any other selector
falls back to the plain-text field. -/
theorem article_content_format_consistent :
    ∀ (a : UpstreamFullArticle) (article_id fmt : String),
      ∃ rec : ArticleContent,
        client_get_article_content (Except.ok a) article_id fmt
          = Except.ok (Option.some rec) ∧
        rec.content_format = fmt ∧
        (∀ s, fmt = "html" → a.html = Option.some s → rec.content = s) ∧
        (∀ s, fmt = "markdown" → a.markdown = Option.some s → rec.content = s) ∧
        (∀ s, fmt ≠ "html" → fmt ≠ "markdown" → a.content = Option.some s →
          rec.content = s) := by
  intro a article_id fmt
  refine ⟨_, rfl, rfl, ?_, ?_, ?_⟩
  · intro s hf hs
    subst hf
    simp [hs, py_or_empty]
  · intro s hf hs
    subst hf
    simp [hs, py_or_empty]
  · intro s h1 h2 hs
    simp [h1, h2, hs, py_or_empty]

/-- The upstream article used by the C6 witness: distinct texts in each
representation field. -/
def sample_full_article : UpstreamFullArticle :=
  { title := Option.some "A Title"
    subtitle := Option.none
    html := Option.some "<p>hello</p>"
    markdown := Option.some "# hello"
    content := Option.some "hello"
    author := Option.some (PyVal.str "someone")
    published_at := Option.none }

/-- Witness for C6, end-to-end scenario 3 of the spec: format `"html"`
returns `content_format = "html"` and the HTML representation text. -/
theorem article_content_format_consistent_witness :
    ∃ rec : ArticleContent,
      client_get_article_content (Except.ok sample_full_article) "abc123" "html"
        = Except.ok (Option.some rec) ∧
      rec.content_format = "html" ∧ rec.content = "<p>hello</p>" := by
  obtain ⟨rec, h1, h2, h3, _, _⟩ :=
    article_content_format_consistent sample_full_article "abc123" "html"
  exact ⟨rec, h1, h2, h3 "<p>hello</p>" rfl rfl⟩

/-- C7: a count outside `[1, 100]` is rejected by every count-taking
tool, and a query blank after stripping is rejected by search — in each
case identically for every access layer `client_fn`, so no upstream
operation is ever consulted. -/
theorem server_validation_first :
    (∀ count : Int, count < 1 ∨ count > 100 →
      (∀ f username, server_get_user_articles f username count
          = Except.error "Error: Count must be between 1 and 100") ∧
      (∀ g tag mode, server_get_top_feeds g tag mode count
          = Except.error "Error: Count must be between 1 and 100") ∧
      (∀ fn q, py_strip q ≠ "" → server_search_articles fn q count
          = Except.error "Error: Count must be between 1 and 100")) ∧
    (∀ q : String, py_strip q = "" →
      ∀ fn (count : Int), server_search_articles fn q count
          = Except.error "Error: Search query cannot be empty") := by
  constructor
  · intro count hc
    have hb : (count < 1 || count > 100) = true := by
      rcases hc with h | h <;> simp [h]
    refine ⟨?_, ?_, ?_⟩
    · intro f username
      simp [server_get_user_articles, hb]
    · intro g tag mode
      simp [server_get_top_feeds, hb]
    · intro fn q hq
      simp [server_search_articles, hq, hb]
  · intro q hq fn count
    simp [server_search_articles, hq]

/-- Witness for C7: count 0 and count 101 are rejected on each tool, and
a whitespace-only query is rejected by search, all against a client that
would succeed if consulted. -/
theorem server_validation_first_witness :
    server_get_user_articles (fun _ _ => Except.ok Option.none) "alice" 0
        = Except.error "Error: Count must be between 1 and 100" ∧
    server_get_top_feeds (fun _ _ _ => Except.ok Option.none) "ai" "hot" 101
        = Except.error "Error: Count must be between 1 and 100" ∧
    server_search_articles (fun _ _ => Except.ok Option.none) "ai" 0
        = Except.error "Error: Count must be between 1 and 100" ∧
    server_search_articles (fun _ _ => Except.ok Option.none) "   " 3
        = Except.error "Error: Search query cannot be empty" :=
  ⟨(server_validation_first.1 0 (Or.inl (by decide))).1
      (fun _ _ => Except.ok Option.none) "alice",
   (server_validation_first.1 101 (Or.inr (by decide))).2.1
      (fun _ _ _ => Except.ok Option.none) "ai" "hot",
   (server_validation_first.1 0 (Or.inl (by decide))).2.2
      (fun _ _ => Except.ok Option.none) "ai" (by decide),
   server_validation_first.2 "   " (by decide)
      (fun _ _ => Except.ok Option.none) 3⟩

/-- C9: `safe_getattr` returns the default exactly on a missing
attribute or an attribute explicitly set to `None`, and otherwise the
value of the attribute; plain `getattr` (used by the non-search operations)
instead passes an explicit `None` through. -/
theorem safe_getattr_default_on_none :
    ∀ (obj : PyObj) (attr : String) (d : Option PyVal),
      (obj attr = Option.none →
        safe_getattr obj attr d = d ∧ getattr_py obj attr d = d) ∧
      (obj attr = Option.some Option.none →
        safe_getattr obj attr d = d ∧ getattr_py obj attr d = Option.none) ∧
      (∀ v, obj attr = Option.some (Option.some v) →
        safe_getattr obj attr d = Option.some v ∧
        getattr_py obj attr d = Option.some v) := by
  intro obj attr d
  refine ⟨?_, ?_, ?_⟩
  · intro h
    cases d with
    | none => simp [safe_getattr, getattr_py, h]
    | some v => simp [safe_getattr, getattr_py, h]
  · intro h
    simp [safe_getattr, getattr_py, h]
  · intro v h
    simp [safe_getattr, getattr_py, h]

/-- An upstream search stub whose `tags` attribute is explicitly `None`
and whose `claps` attribute is missing. -/
def stub_with_none_tags : PyObj :=
  fun attr =>
    if attr = "tags" then Option.some Option.none
    else if attr = "title" then Option.some (Option.some (PyVal.str "A Title"))
    else Option.none

/-- Witness for C9 with the call-site defaults of `search_articles`: on
an object whose `tags` is explicitly `None`, `safe_getattr` yields the
documented default `[]` while plain `getattr` passes the `None` through,
and a missing `claps` attribute falls back to the default under both. -/
theorem safe_getattr_default_on_none_witness :
    (safe_getattr stub_with_none_tags "tags" (Option.some (PyVal.list []))
        = Option.some (PyVal.list []) ∧
      getattr_py stub_with_none_tags "tags" (Option.some (PyVal.list []))
        = Option.none) ∧
    (safe_getattr stub_with_none_tags "claps" (Option.some (PyVal.int 0))
        = Option.some (PyVal.int 0) ∧
      getattr_py stub_with_none_tags "claps" (Option.some (PyVal.int 0))
        = Option.some (PyVal.int 0)) ∧
    (safe_getattr stub_with_none_tags "title" (Option.some (PyVal.str ""))
        = Option.some (PyVal.str "A Title") ∧
      getattr_py stub_with_none_tags "title" (Option.some (PyVal.str ""))
        = Option.some (PyVal.str "A Title")) :=
  ⟨(safe_getattr_default_on_none stub_with_none_tags "tags"
      (Option.some (PyVal.list []))).2.1 (by simp [stub_with_none_tags]),
   (safe_getattr_default_on_none stub_with_none_tags "claps"
      (Option.some (PyVal.int 0))).1 (by simp [stub_with_none_tags]),
   (safe_getattr_default_on_none stub_with_none_tags "title"
      (Option.some (PyVal.str ""))).2.2 (PyVal.str "A Title")
      (by simp [stub_with_none_tags])⟩

/-- C1 counterexample: when the upstream client has no record of handle
`"ghost"` and signals it the way the tests of this code base exercise it
(the upstream call raising `"User not found"`), the `get_user_info` tool
raises `"Medium API Error: Resource not found: ..."` — it does not
return JSON `null`. -/
theorem user_info_null_counterexample :
    server_get_user_info
        (fun u => client_get_user_info (Except.error "User not found") u) "ghost"
      = Except.error "Medium API Error: Resource not found: getting user info for ghost" ∧
    server_get_user_info
        (fun u => client_get_user_info (Except.error "User not found") u) "ghost"
      ≠ Except.ok "null" := by
  have h1 : server_get_user_info
      (fun u => client_get_user_info (Except.error "User not found") u) "ghost"
      = Except.error "Medium API Error: Resource not found: getting user info for ghost" := by
    have hcls : handle_api_error "User not found" "getting user info for ghost"
        = { message := "Resource not found: getting user info for ghost"
            status_code := Option.some 404
            details := [("context", "getting user info for ghost")] } := by
      decide
    simp [server_get_user_info, client_get_user_info, hcls]
  exact ⟨h1, by rw [h1]; exact fun hcontra => Except.noConfusion hcontra⟩

/-- C1 amended: the tool returns JSON `null` exactly when the access
layer returns the no-record result `None`; but the implemented profile
operation never produces that result — every upstream failure is
re-raised as a classified `MediumError`, which the tool converts into a
raised `"Medium API Error: ..."` exception. -/
theorem user_info_null_amended :
    (∀ (up : Except String UpstreamUser) (u : String),
      client_get_user_info up u ≠ Except.ok Option.none) ∧
    (∀ (fc : String → Except MediumError (Option MediumUser)) (u : String),
      fc u = Except.ok Option.none → server_get_user_info fc u = Except.ok "null") ∧
    (∀ (e u : String),
      server_get_user_info (fun v => client_get_user_info (Except.error e) v) u
        = Except.error ("Medium API Error: "
            ++ (handle_api_error e ("getting user info for " ++ u)).message)) := by
  refine ⟨?_, ?_, fun e u => rfl⟩
  · intro up u h
    cases up with
    | ok user => simp [client_get_user_info] at h
    | error e => simp [client_get_user_info] at h
  · intro fc u h
    simp [server_get_user_info, h, dumps_opt_user]

/-- Witness for C1 (amended): an access layer that does return `None`
makes the tool emit the JSON text `null`. -/
theorem user_info_null_amended_witness :
    server_get_user_info (fun _ => Except.ok Option.none) "ghost" = Except.ok "null" :=
  user_info_null_amended.2.1 (fun _ => Except.ok Option.none) "ghost" rfl

